/-
Verification of backlightd against its design specification.

The Rust sources are shallowly embedded: pure logic becomes Lean
functions, fallible or panicking code returns Option (none models a
panic or an assertion failure), injected I/O failures are explicit
fields or parameters, and f64 arithmetic on exact inputs is modelled
by the rationals.  Machine integers are Nat/Int with explicit wrap or
range checks where the Rust types matter.
-/
import Mathlib

/-! ## Sun Curve Calculator (src/backlightd/src/auto.rs) -/

/-- Outcome of a single device power-control call: `panics` models an
unconditional panic in the backend (the acpi backend's `todo` body),
`fails` a DeviceError, `succeeds` a successful call.  `notSupported`
models the NotSupported signal the spec mandates; no backend in the
code produces it. -/
inductive DevOutcome
  | panics
  | fails
  | succeeds
  | notSupported
deriving DecidableEq, Repr

/-- A monitor as the Brightness Controller sees it: the cached current
brightness percent, plus injected outcomes for the fallible device
calls (whether the raw brightness write fails, and what the power
on/off calls do). -/
structure Monitor where
  percent : ℕ
  setFails : Bool
  powerOff : DevOutcome
  powerOn : DevOutcome
deriving DecidableEq, Repr

/-- `set_brightness` of a single device (acpi.rs / ddc.rs): asserts
percent ≤ 100 (`none` models the assert failing, which panics), then
attempts the hardware write; on success only, the cached percent is
updated.  The Bool is true on success. -/
def Monitor.setBrightness (m : Monitor) (p : ℕ) : Option (Monitor × Bool) :=
  if 100 < p then none
  else if m.setFails then some (m, false)
  else some ({ m with percent := p }, true)

/-- The acpi backend's `turn_off` body is a bare `todo`, which panics. -/
def acpiTurnOffOutcome : DevOutcome := DevOutcome.panics

/-- The acpi backend's `turn_on` body is a bare `todo`, which panics. -/
def acpiTurnOnOutcome : DevOutcome := DevOutcome.panics

/-- The write loop of `set_brightness_percent` (monitors.rs): iterates
over every monitor, records the last error but keeps going; `none`
models a panic inside a device call aborting the loop.  Returns the
updated monitors and whether any write failed. -/
def set_loop (p : ℕ) : List Monitor → Option (List Monitor × Bool)
  | [] => some ([], false)
  | m :: rest =>
    match m.setBrightness p with
    | none => none
    | some (m', ok) =>
      match set_loop p rest with
      | none => none
      | some (tail, err) => some (m' :: tail, (!ok) || err)

/-- `set_brightness_percent` (monitors.rs): run the write loop over the
registry; if any monitor failed, refresh the registry (replacing it
with the freshly enumerated `fresh` list) and return the error.
Result: (final registry, number of refresh calls, whether Err was
returned). -/
def set_brightness_percent (ms : List Monitor) (p : ℕ) (fresh : List Monitor) :
    Option (List Monitor × ℕ × Bool) :=
  match set_loop p ms with
  | none => none
  | some (ms', anyErr) =>
    if anyErr then some (fresh, 1, true) else some (ms', 0, false)

/-- Checked u8 addition: Rust `u8 + u8` panics on overflow. -/
def u8Add (a b : ℕ) : Option ℕ := if a + b ≤ 255 then some (a + b) else none

/-- Rust `as i8` cast from u8: two's-complement reinterpretation. -/
def i8OfU8 (x : ℕ) : ℤ := if x < 128 then (x : ℤ) else (x : ℤ) - 256

/-- Checked i8 subtraction: Rust `i8 - i8` panics on overflow. -/
def i8Sub (a b : ℤ) : Option ℤ :=
  if -128 ≤ a - b ∧ a - b ≤ 127 then some (a - b) else none

/-- Rust `as u8` cast from i8: two's-complement reinterpretation. -/
def u8OfI8 (z : ℤ) : ℕ := ((z % 256 + 256) % 256).toNat

/-- The loop body of `increase_brightness_percent` (monitors.rs):
new = current + delta (u8 addition), clamped down to 100, then written
to the device.  Each output pair carries the resulting monitor and the
percent value that was attempted on it. -/
def increase_loop (d : ℕ) : List Monitor → Option (List (Monitor × ℕ) × Bool)
  | [] => some ([], false)
  | m :: rest =>
    match u8Add m.percent d with
    | none => none
    | some nb0 =>
      let nb := if 100 < nb0 then 100 else nb0
      match m.setBrightness nb with
      | none => none
      | some (m', ok) =>
        match increase_loop d rest with
        | none => none
        | some (tail, err) => some ((m', nb) :: tail, (!ok) || err)

/-- The loop body of `decrease_brightness_percent` (monitors.rs):
new = current - delta computed in i8 arithmetic, clamped up to 1 (never
0, so the screen cannot go fully black), cast back to u8 and written to
the device. -/
def decrease_loop (d : ℕ) : List Monitor → Option (List (Monitor × ℕ) × Bool)
  | [] => some ([], false)
  | m :: rest =>
    match i8Sub (i8OfU8 m.percent) (i8OfU8 d) with
    | none => none
    | some nb0 =>
      let nb1 := if nb0 < 1 then 1 else nb0
      let nb := u8OfI8 nb1
      match m.setBrightness nb with
      | none => none
      | some (m', ok) =>
        match decrease_loop d rest with
        | none => none
        | some (tail, err) => some ((m', nb) :: tail, (!ok) || err)

/-- `increase_brightness_percent` (monitors.rs) with its
refresh-on-failure step, like `set_brightness_percent`. -/
def increase_brightness_percent (ms : List Monitor) (d : ℕ) (fresh : List Monitor) :
    Option (List Monitor × ℕ × Bool) :=
  match increase_loop d ms with
  | none => none
  | some (pairs, anyErr) =>
    if anyErr then some (fresh, 1, true) else some (pairs.map Prod.fst, 0, false)

/-- `decrease_brightness_percent` (monitors.rs) with its
refresh-on-failure step. -/
def decrease_brightness_percent (ms : List Monitor) (d : ℕ) (fresh : List Monitor) :
    Option (List Monitor × ℕ × Bool) :=
  match decrease_loop d ms with
  | none => none
  | some (pairs, anyErr) =>
    if anyErr then some (fresh, 1, true) else some (pairs.map Prod.fst, 0, false)

/-- The per-monitor effect `increase(d)` is specified to have: target
min(100, current + d), applied to the cache only when the write
succeeds. -/
def applyIncrease (d : ℕ) (m : Monitor) : Monitor × ℕ :=
  (if m.setFails then m else { m with percent := min 100 (m.percent + d) },
   min 100 (m.percent + d))

/-- The per-monitor effect `decrease(d)` is specified to have: target
max(1, current - d). -/
def applyDecrease (d : ℕ) (m : Monitor) : Monitor × ℕ :=
  (if m.setFails then m else { m with percent := max 1 (m.percent - d) },
   max 1 (m.percent - d))

lemma setBrightness_ok (m : Monitor) (p : ℕ) (hp : p ≤ 100) :
    m.setBrightness p =
      if m.setFails then some (m, false) else some ({ m with percent := p }, true) := by
  rw [Monitor.setBrightness, if_neg (by omega)]

/-- The per-monitor effect `set(p)` has on the registry. -/
def applySet (p : ℕ) (m : Monitor) : Monitor :=
  if m.setFails then m else { m with percent := p }

lemma set_loop_eq (p : ℕ) (hp : p ≤ 100) :
    ∀ ms : List Monitor,
      set_loop p ms = some (ms.map (applySet p), ms.any (fun m => m.setFails)) := by
  intro ms
  induction ms with
  | nil => rfl
  | cons m rest ih =>
    simp only [set_loop, setBrightness_ok m p hp, List.map_cons, List.any_cons]
    cases hf : m.setFails with
    | false => simp [ih, applySet, hf]
    | true => simp [ih, applySet, hf]

lemma increase_loop_eq (d : ℕ) (hd : d ≤ 100) :
    ∀ ms : List Monitor, (∀ m ∈ ms, m.percent ≤ 100) →
      increase_loop d ms = some (ms.map (applyIncrease d), ms.any (fun m => m.setFails)) := by
  intro ms
  induction ms with
  | nil => intro _; rfl
  | cons m rest ih =>
    intro hms
    have hm : m.percent ≤ 100 := hms m (List.mem_cons_self m rest)
    have hrest := ih (fun x hx => hms x (List.mem_cons_of_mem m hx))
    have hadd : u8Add m.percent d = some (m.percent + d) := by
      rw [u8Add, if_pos (by omega)]
    have hclamp : (if 100 < m.percent + d then 100 else m.percent + d) =
        min 100 (m.percent + d) := by
      split <;> omega
    simp only [increase_loop, hadd, hclamp,
      setBrightness_ok m (min 100 (m.percent + d)) (by omega),
      List.map_cons, List.any_cons]
    cases hf : m.setFails with
    | false => simp [hrest, applyIncrease, hf]
    | true => simp [hrest, applyIncrease, hf]

lemma decrease_loop_eq (d : ℕ) (hd : d ≤ 100) :
    ∀ ms : List Monitor, (∀ m ∈ ms, m.percent ≤ 100) →
      decrease_loop d ms = some (ms.map (applyDecrease d), ms.any (fun m => m.setFails)) := by
  intro ms
  induction ms with
  | nil => intro _; rfl
  | cons m rest ih =>
    intro hms
    have hm : m.percent ≤ 100 := hms m (List.mem_cons_self m rest)
    have hrest := ih (fun x hx => hms x (List.mem_cons_of_mem m hx))
    have h1 : i8OfU8 m.percent = (m.percent : ℤ) := by
      rw [i8OfU8, if_pos (by omega)]
    have h2 : i8OfU8 d = (d : ℤ) := by
      rw [i8OfU8, if_pos (by omega)]
    have hsub : i8Sub (m.percent : ℤ) (d : ℤ) = some ((m.percent : ℤ) - (d : ℤ)) := by
      rw [i8Sub, if_pos (by omega)]
    have hclamp : u8OfI8 (if (m.percent : ℤ) - (d : ℤ) < 1 then 1
        else (m.percent : ℤ) - (d : ℤ)) = max 1 (m.percent - d) := by
      rw [u8OfI8]
      split <;> omega
    simp only [decrease_loop, h1, h2, hsub, hclamp,
      setBrightness_ok m (max 1 (m.percent - d)) (by omega),
      List.map_cons, List.any_cons]
    cases hf : m.setFails with
    | false => simp [hrest, applyDecrease, hf]
    | true => simp [hrest, applyDecrease, hf]

/-- C5: for every delta d in [0,100] and every registry whose current
percents are in [0,100], the increase loop attempts, on each monitor
independently, the target min(100, current + d) and the decrease loop
the target max(1, current - d), updating the cached percent exactly on
the monitors whose write succeeds. -/
theorem increase_decrease_clamp (d : ℕ) (ms : List Monitor)
    (hd : d ≤ 100) (hms : ∀ m ∈ ms, m.percent ≤ 100) :
    increase_loop d ms = some (ms.map (applyIncrease d), ms.any (fun m => m.setFails)) ∧
    decrease_loop d ms = some (ms.map (applyDecrease d), ms.any (fun m => m.setFails)) :=
  ⟨increase_loop_eq d hd ms hms, decrease_loop_eq d hd ms hms⟩

/-- Witness for C5: delta 30 over one succeeding monitor at 50% and one
failing monitor at 90%. -/
theorem increase_decrease_clamp_witness :
    increase_loop 30
        ([⟨50, false, DevOutcome.succeeds, DevOutcome.succeeds⟩,
          ⟨90, true, DevOutcome.succeeds, DevOutcome.succeeds⟩] : List Monitor) =
      some (([⟨50, false, DevOutcome.succeeds, DevOutcome.succeeds⟩,
              ⟨90, true, DevOutcome.succeeds, DevOutcome.succeeds⟩] : List Monitor).map
            (applyIncrease 30),
        ([⟨50, false, DevOutcome.succeeds, DevOutcome.succeeds⟩,
          ⟨90, true, DevOutcome.succeeds, DevOutcome.succeeds⟩] : List Monitor).any
          (fun m => m.setFails)) ∧
    decrease_loop 30
        ([⟨50, false, DevOutcome.succeeds, DevOutcome.succeeds⟩,
          ⟨90, true, DevOutcome.succeeds, DevOutcome.succeeds⟩] : List Monitor) =
      some (([⟨50, false, DevOutcome.succeeds, DevOutcome.succeeds⟩,
              ⟨90, true, DevOutcome.succeeds, DevOutcome.succeeds⟩] : List Monitor).map
            (applyDecrease 30),
        ([⟨50, false, DevOutcome.succeeds, DevOutcome.succeeds⟩,
          ⟨90, true, DevOutcome.succeeds, DevOutcome.succeeds⟩] : List Monitor).any
          (fun m => m.setFails)) :=
  increase_decrease_clamp 30 _ (by decide) (by decide)

/-- C6: `set(percent)` attempts the write on every monitor even after
one fails (the write loop maps over the whole registry); when at least
one monitor failed the registry is refreshed exactly once, the final
registry is the freshly enumerated list with no second write pass (the
failed write is not retried), and an error is still returned; when no
monitor failed there is no refresh and no error. -/
theorem set_brightness_best_effort (ms fresh : List Monitor) (p : ℕ) (hp : p ≤ 100) :
    set_loop p ms = some (ms.map (applySet p), ms.any (fun m => m.setFails)) ∧
    (ms.any (fun m => m.setFails) = true →
      set_brightness_percent ms p fresh = some (fresh, 1, true)) ∧
    (ms.any (fun m => m.setFails) = false →
      set_brightness_percent ms p fresh = some (ms.map (applySet p), 0, false)) := by
  refine ⟨set_loop_eq p hp ms, ?_, ?_⟩
  · intro h
    rw [set_brightness_percent, set_loop_eq p hp ms, h]
    rfl
  · intro h
    rw [set_brightness_percent, set_loop_eq p hp ms, h]
    rfl

/-- Witness for C6: one failing and one succeeding monitor, percent 40.
The failing registry triggers exactly one refresh and the error is
returned. -/
theorem set_brightness_best_effort_witness :
    set_brightness_percent
        ([⟨50, true, DevOutcome.succeeds, DevOutcome.succeeds⟩,
          ⟨60, false, DevOutcome.succeeds, DevOutcome.succeeds⟩] : List Monitor) 40
        ([⟨70, false, DevOutcome.succeeds, DevOutcome.succeeds⟩] : List Monitor) =
      some (([⟨70, false, DevOutcome.succeeds, DevOutcome.succeeds⟩] : List Monitor), 1, true) :=
  (set_brightness_best_effort _ _ 40 (by decide)).2.1 (by decide)

/-- One pass of `turn_off` (monitors.rs): calls `turn_off` on every
monitor, recording the last error but continuing; `none` models a
backend panic aborting the pass.  Returns whether any call failed. -/
def turn_off_pass : List Monitor → Option Bool
  | [] => some false
  | m :: rest =>
    match m.powerOff with
    | DevOutcome.panics => none
    | DevOutcome.fails =>
      match turn_off_pass rest with
      | none => none
      | some _ => some true
    | _ => turn_off_pass rest

/-- One pass of `turn_on` (monitors.rs). -/
def turn_on_pass : List Monitor → Option Bool
  | [] => some false
  | m :: rest =>
    match m.powerOn with
    | DevOutcome.panics => none
    | DevOutcome.fails =>
      match turn_on_pass rest with
      | none => none
      | some _ => some true
    | _ => turn_on_pass rest

/-- `turn_off` (monitors.rs): a first pass over the registry; if any
monitor failed, refresh the registry once (swapping in `fresh`) and
retry the entire batch exactly once more, returning only the second
pass's failure.  Result: (number of refresh calls, whether Err was
returned). -/
def turn_off (ms fresh : List Monitor) : Option (ℕ × Bool) :=
  match turn_off_pass ms with
  | none => none
  | some true =>
    match turn_off_pass fresh with
    | none => none
    | some f => some (1, f)
  | some false => some (0, false)

/-- `turn_on` (monitors.rs), same shape as `turn_off`. -/
def turn_on (ms fresh : List Monitor) : Option (ℕ × Bool) :=
  match turn_on_pass ms with
  | none => none
  | some true =>
    match turn_on_pass fresh with
    | none => none
    | some f => some (1, f)
  | some false => some (0, false)

lemma turn_off_pass_eq (ms : List Monitor)
    (h : ∀ m ∈ ms, m.powerOff ≠ DevOutcome.panics) :
    turn_off_pass ms = some (ms.any (fun m => m.powerOff == DevOutcome.fails)) := by
  induction ms with
  | nil => rfl
  | cons m rest ih =>
    have hm : m.powerOff ≠ DevOutcome.panics := h m (List.mem_cons_self m rest)
    have hrest := ih (fun x hx => h x (List.mem_cons_of_mem m hx))
    cases ho : m.powerOff <;> simp_all [turn_off_pass]

lemma turn_on_pass_eq (ms : List Monitor)
    (h : ∀ m ∈ ms, m.powerOn ≠ DevOutcome.panics) :
    turn_on_pass ms = some (ms.any (fun m => m.powerOn == DevOutcome.fails)) := by
  induction ms with
  | nil => rfl
  | cons m rest ih =>
    have hm : m.powerOn ≠ DevOutcome.panics := h m (List.mem_cons_self m rest)
    have hrest := ih (fun x hx => h x (List.mem_cons_of_mem m hx))
    cases ho : m.powerOn <;> simp_all [turn_on_pass]

/-- C7: `turn_off` and `turn_on` apply to every monitor of the
registry; the registry is refreshed exactly once when and only when the
first pass had a failure, in which case the entire batch is retried
once on the refreshed registry, and the error returned to the caller is
exactly the second pass's failure.  (Stated for registries of backends
whose power calls return rather than panic; the acpi backend's
panicking stubs are treated separately.) -/
theorem turn_off_on_retry_once (ms fresh : List Monitor)
    (hoff1 : ∀ m ∈ ms, m.powerOff ≠ DevOutcome.panics)
    (hoff2 : ∀ m ∈ fresh, m.powerOff ≠ DevOutcome.panics)
    (hon1 : ∀ m ∈ ms, m.powerOn ≠ DevOutcome.panics)
    (hon2 : ∀ m ∈ fresh, m.powerOn ≠ DevOutcome.panics) :
    turn_off ms fresh =
      some (if ms.any (fun m => m.powerOff == DevOutcome.fails) then 1 else 0,
        ms.any (fun m => m.powerOff == DevOutcome.fails) &&
          fresh.any (fun m => m.powerOff == DevOutcome.fails)) ∧
    turn_on ms fresh =
      some (if ms.any (fun m => m.powerOn == DevOutcome.fails) then 1 else 0,
        ms.any (fun m => m.powerOn == DevOutcome.fails) &&
          fresh.any (fun m => m.powerOn == DevOutcome.fails)) := by
  constructor
  · rw [turn_off, turn_off_pass_eq ms hoff1]
    cases h1 : ms.any (fun m => m.powerOff == DevOutcome.fails) with
    | false => rfl
    | true =>
      rw [if_pos rfl]
      simp only [turn_off_pass_eq fresh hoff2, Bool.true_and]
  · rw [turn_on, turn_on_pass_eq ms hon1]
    cases h1 : ms.any (fun m => m.powerOn == DevOutcome.fails) with
    | false => rfl
    | true =>
      rw [if_pos rfl]
      simp only [turn_on_pass_eq fresh hon2, Bool.true_and]

/-- Witness for C7: a first pass with one failing power call, a
refreshed registry whose calls all succeed; one refresh happens and no
error is returned. -/
theorem turn_off_on_retry_once_witness :
    turn_off
        ([⟨50, false, DevOutcome.fails, DevOutcome.fails⟩] : List Monitor)
        ([⟨50, false, DevOutcome.succeeds, DevOutcome.succeeds⟩] : List Monitor) =
      some (if ([⟨50, false, DevOutcome.fails, DevOutcome.fails⟩] : List Monitor).any
          (fun m => m.powerOff == DevOutcome.fails) then 1 else 0,
        ([⟨50, false, DevOutcome.fails, DevOutcome.fails⟩] : List Monitor).any
            (fun m => m.powerOff == DevOutcome.fails) &&
          ([⟨50, false, DevOutcome.succeeds, DevOutcome.succeeds⟩] : List Monitor).any
            (fun m => m.powerOff == DevOutcome.fails)) ∧
    turn_on
        ([⟨50, false, DevOutcome.fails, DevOutcome.fails⟩] : List Monitor)
        ([⟨50, false, DevOutcome.succeeds, DevOutcome.succeeds⟩] : List Monitor) =
      some (if ([⟨50, false, DevOutcome.fails, DevOutcome.fails⟩] : List Monitor).any
          (fun m => m.powerOn == DevOutcome.fails) then 1 else 0,
        ([⟨50, false, DevOutcome.fails, DevOutcome.fails⟩] : List Monitor).any
            (fun m => m.powerOn == DevOutcome.fails) &&
          ([⟨50, false, DevOutcome.succeeds, DevOutcome.succeeds⟩] : List Monitor).any
            (fun m => m.powerOn == DevOutcome.fails)) :=
  turn_off_on_retry_once _ _ (by decide) (by decide) (by decide) (by decide)

/-- `get_average_brightness` (monitors.rs): sums the cached percents
and divides by the number of monitors with no emptiness guard.  In
Rust, integer division by zero panics, modelled by `none`; the cast of
the average back to u8 is the identity because an average of u8 values
is itself at most 255. -/
def get_average_brightness (ms : List Monitor) : Option ℕ :=
  if ms.length = 0 then none
  else some ((ms.map (fun m => m.percent)).sum / ms.length)

/-- C1 (code bug): calling `get_average_brightness` on an empty
registry divides by zero and panics instead of yielding the defined
result (0 or an explicit error) that the spec requires.  Also checks
the documented nonempty example: percents [20, 40, 41] average to 33. -/
theorem get_average_brightness_empty_panics :
    get_average_brightness [] = none ∧
    get_average_brightness
        ([⟨20, false, DevOutcome.succeeds, DevOutcome.succeeds⟩,
          ⟨40, false, DevOutcome.succeeds, DevOutcome.succeeds⟩,
          ⟨41, false, DevOutcome.succeeds, DevOutcome.succeeds⟩] : List Monitor) =
      some 33 := by
  constructor <;> rfl

/-- C2 (code bug): the raw-sysfs (acpi) backend's power controls are
panicking stubs, not the distinct NotSupported error the spec
mandates. -/
theorem acpi_power_control_panics :
    acpiTurnOffOutcome = DevOutcome.panics ∧
    acpiTurnOnOutcome = DevOutcome.panics ∧
    acpiTurnOffOutcome ≠ DevOutcome.notSupported ∧
    acpiTurnOnOutcome ≠ DevOutcome.notSupported := by
  refine ⟨rfl, rfl, ?_, ?_⟩ <;> decide

/-! ## Command protocol (src/backlight_ipc/src/lib.rs) -/

/-- `BacklightMode` from backlight_ipc. -/
inductive BacklightMode
  | Auto
  | Manual
deriving DecidableEq, Repr

/-- `BacklightCommand` from backlight_ipc.  Payload bytes are u8
values, carried as Nat in [0, 255]. -/
inductive BacklightCommand
  | SetBrightness (percent : ℕ)
  | IncreaseBrightness (percent : ℕ)
  | DecreaseBrightness (percent : ℕ)
  | TurnOffMonitors
  | TurnOnMonitors
  | Refresh
  | SetMode (mode : BacklightMode)
  | GetInfo
  | GetInfoResponse (brightness_percent : ℕ)
  | NotifyShutdown
deriving DecidableEq, Repr

/-- Read a little-endian u32 from a byte stream (bincode's default
encoding for an enum discriminant). -/
def readU32LE : List ℕ → Option (ℕ × List ℕ)
  | a :: b :: c :: d :: rest => some (a + 256 * b + 65536 * c + 16777216 * d, rest)
  | _ => none

/-- Read one byte from a byte stream. -/
def readU8 : List ℕ → Option (ℕ × List ℕ)
  | b :: rest => some (b, rest)
  | [] => none

/-- `BacklightCommand::deserialize_from` (backlight_ipc): bincode
decodes the variant discriminant as a little-endian u32 followed by the
raw payload byte(s).  Every u8 payload value 0-255 is accepted: there
is no range validation here. -/
def deserialize_from (bytes : List ℕ) : Option BacklightCommand :=
  match readU32LE bytes with
  | none => none
  | some (disc, rest) =>
    match disc with
    | 0 => (readU8 rest).map (fun x => BacklightCommand.SetBrightness x.1)
    | 1 => (readU8 rest).map (fun x => BacklightCommand.IncreaseBrightness x.1)
    | 2 => (readU8 rest).map (fun x => BacklightCommand.DecreaseBrightness x.1)
    | 3 => some BacklightCommand.TurnOffMonitors
    | 4 => some BacklightCommand.TurnOnMonitors
    | 5 => some BacklightCommand.Refresh
    | 6 =>
      match readU32LE rest with
      | some (0, _) => some (BacklightCommand.SetMode BacklightMode.Auto)
      | some (1, _) => some (BacklightCommand.SetMode BacklightMode.Manual)
      | _ => none
    | 7 => some BacklightCommand.GetInfo
    | 8 => (readU8 rest).map (fun x => BacklightCommand.GetInfoResponse x.1)
    | 9 => some BacklightCommand.NotifyShutdown
    | _ => none

/-- C3 (code bug): an out-of-range percent is not rejected at the
protocol boundary.  The wire bytes for SetBrightness(150) decode
successfully (no protocol error), and dispatching that command to the
brightness controller reaches `assert percent <= 100` inside the
device backend's set_brightness, which panics (`none`), instead of the
protocol error the spec requires. -/
theorem out_of_range_percent_reaches_assert :
    deserialize_from [0, 0, 0, 0, 150] = some (BacklightCommand.SetBrightness 150) ∧
    set_brightness_percent
        ([⟨50, false, DevOutcome.succeeds, DevOutcome.succeeds⟩] : List Monitor) 150
        ([] : List Monitor) = none := by
  constructor <;> rfl

/-! ## Location resolution on the scheduler's path
(src/backlightd/src/auto.rs, find_location / find_ip_location)

The `find_ip_location` the mode scheduler actually invokes is the one
local to auto.rs: `auto_adjust` calls auto.rs's `find_location`, which
calls auto.rs's `find_ip_location`.  That variant keeps no cache and
no timestamp: it performs the remote API call unconditionally on every
invocation.  location.rs contains a TTL-guarded variant with an
in-memory cache and a cache file, but no module of the crate declares
or references it, so it is not part of the running program. -/

/-- `find_ip_location` (auto.rs): issues the HTTP geolocation request
as its first action, unconditionally — there is no cache, timestamp or
freshness check in this function.  `api` is the outcome of the remote
call (`none`: network failure or non-success status, surfaced as an
error to the caller).  The Bool records whether the network was
attempted; it is true on every path. -/
def find_ip_location (api : Option (ℚ × ℚ)) : Option (ℚ × ℚ) × Bool :=
  match api with
  | none => (none, true)
  | some (lat, lon) => (some (lat, lon), true)

/-- `find_location` (auto.rs): explicit configuration first (`config`:
`none` when the location variable is absent, `some none` when present
but malformed — a fatal parse error for this call — and `some (some
loc)` when parsed); otherwise, when the API is not disabled, the
remote lookup via `find_ip_location`, whose failure falls back to
"no location".  Outer `none` models the Err return; the Bool records
whether the network was attempted. -/
def find_location (config : Option (Option (ℚ × ℚ))) (allowApi : Bool)
    (api : Option (ℚ × ℚ)) : Option (Option (ℚ × ℚ)) × Bool :=
  match config with
  | some (some loc) => (some (some loc), false)
  | some none => (none, false)
  | none =>
    if allowApi then
      match find_ip_location api with
      | (some loc, att) => (some (some loc), att)
      | (none, att) => (some none, att)
    else (some none, false)

/-- C8 (code bug): on the scheduler's resolution path, with no explicit
configuration and lookup enabled, the remote geolocation call is
attempted on every single invocation — whether the previous call
succeeded moments earlier or not — because the live `find_ip_location`
holds no cache and no timestamp.  The claimed 12-hour TTL guard never
runs: it lives only in the unmounted location.rs module. -/
theorem location_lookup_unconditional :
    (find_location none true (some (48, 2))).2 = true ∧
    (find_location none true none).2 = true :=
  ⟨rfl, rfl⟩

/-! ## Mode Scheduler (src/backlightd/src/auto.rs, auto_adjust) -/

/-- One iteration of the `auto_adjust` loop, from the point where the
bounded receive returns (brightness application elided: it does not
touch the mode state).  `msg` is the received mode-change signal, if
any (`none` models the 10-minute receive timeout); `now` is the
current instant in seconds; on receipt the last-changed instant is
reset.  After the receive, independent of mode, the mode is forced
back to Auto when more than 12 hours (43200 s) have elapsed since the
last mode change. -/
def auto_adjust_step (mode : BacklightMode) (lastChanged : ℕ)
    (msg : Option BacklightMode) (now : ℕ) : BacklightMode × ℕ :=
  match msg with
  | some newMode =>
    if 43200 < now - now then (BacklightMode.Auto, now) else (newMode, now)
  | none =>
    if 43200 < now - lastChanged then (BacklightMode.Auto, lastChanged)
    else (mode, lastChanged)

/-- C9: if more than 12 hours elapse after the last mode change with no
mode-change signal received while the mode is Manual, the scheduler
transitions back to Auto on its own at its next wake, without an
explicit message. -/
theorem mode_reverts_to_auto (lastChanged now : ℕ)
    (h : 43200 < now - lastChanged) :
    auto_adjust_step BacklightMode.Manual lastChanged none now =
      (BacklightMode.Auto, lastChanged) := by
  rw [auto_adjust_step]
  simp only [if_pos h]

/-- Witness for C9: last change at t = 0, wake at t = 43201. -/
theorem mode_reverts_to_auto_witness :
    auto_adjust_step BacklightMode.Manual 0 none 43201 =
      (BacklightMode.Auto, 0) :=
  mode_reverts_to_auto 0 43201 (by decide)
